import Mathlib

/-!
Verification of the DeerLab background-model library (`deerlab/bg_models.py`)
against its natural-language specification.

The Python source is shallowly embedded over the real numbers:
numpy 1-D arrays become `List ℝ`, numpy scalars become `ℝ`, `np.exp` becomes
`Real.exp`, Python `**` with a real exponent becomes `Real.rpow`, and the
fallible call contract (wrong argument counts, wrong parameter counts, numpy
broadcast failures) is made explicit through an error type.  External
collaborators — the excluded-volume lookup-table provider
(`deerlab.utils.load_exvolume_redfactor`), numpy's linear interpolation
`np.interp`, and scipy's quadrature `scp.integrate.quad` — are not part of the
embedded module and are passed in as explicit parameters, so every theorem
quantifying over them holds whatever those collaborators return.
-/

namespace DeerLab

open Real

noncomputable section

/-- A positional argument of a model call: a numeric scalar or a 1-D array. -/
inductive PyVal where
  | scalar : ℝ → PyVal
  | array : List ℝ → PyVal

/-- Embedding of `np.atleast_1d`: a scalar is broadcast to a length-1 array, an array is
returned as is. -/
def atleast_1d : PyVal → List ℝ
  | .scalar x => [x]
  | .array xs => xs

/-- The value used where the caller contract fixes a float scalar (the
modulation depth).  A one-element array behaves like its single entry. -/
def asFloat : PyVal → ℝ
  | .scalar x => x
  | .array xs => xs.headD 0

/-- The errors a model call can raise.  `invalidArgCount` is the `TypeError`
of `_parsargs` for an argument count other than 2 or 3; `paramCountMismatch`
is its `ValueError`, carrying the expected parameter count `npar` and the
received count `len(p)` exactly as the raised message does; `broadcastError`
is numpy's `ValueError` for an elementwise operation on arrays of
incompatible shapes. -/
inductive BgError where
  | invalidArgCount : BgError
  | paramCountMismatch (expected got : ℕ) : BgError
  | broadcastError : BgError
deriving DecidableEq

/-- The `info` dictionary every model returns when called with no
arguments. -/
structure ModelInfo where
  Parameters : List String
  Units : List String
  Start : List ℝ
  Lower : List ℝ
  Upper : List ℝ

/-- The result of calling a model: the `info` descriptor dictionary (empty
call), the computed decay curve, or a raised error. -/
inductive ModelResult where
  | info : ModelInfo → ModelResult
  | curve : List ℝ → ModelResult
  | error : BgError → ModelResult

/-- Embedding of `_parsargs(args, npar)`: dispatch on the positional-argument count
(2 arguments default the modulation depth to 1, 3 take it explicitly, any
other count raises), coerce the time axis and parameter vector with
`np.atleast_1d`, then check the parameter count against `npar` before
anything else runs. -/
def _parsargs (args : List PyVal) (npar : ℕ) :
    Except BgError (List ℝ × List ℝ × ℝ) :=
  match args with
  | [tv, pv] =>
      let t := atleast_1d tv
      let p := atleast_1d pv
      if p.length ≠ npar then .error (.paramCountMismatch npar p.length)
      else .ok (t, p, 1)
  | [tv, pv, lv] =>
      let t := atleast_1d tv
      let p := atleast_1d pv
      if p.length ≠ npar then .error (.paramCountMismatch npar p.length)
      else .ok (t, p, asFloat lv)
  | _ => .error .invalidArgCount

end

/-! ### Physical constants (CODATA 2018), as defined inside each model -/

noncomputable section

/-- Avogadro constant, mol⁻¹. -/
def NA : ℝ := 6.02214076e23

/-- Bohr magneton, J/T. -/
def muB : ℝ := 9.2740100783e-24

/-- Magnetic constant, N·A⁻². -/
def mu0 : ℝ := 1.25663706212e-6

/-- Planck constant, J/Hz. -/
def hPlanck : ℝ := 6.62607015e-34

/-- Free-electron g factor. -/
def ge : ℝ := 2.00231930436256

/-- Reduced Planck constant `h/2/pi`. -/
def hbar : ℝ := hPlanck / 2 / π

/-- Dipolar constant `(mu0/4/pi)*(muB*ge)**2/hbar`, m³·s⁻¹. -/
def Dconst : ℝ := (mu0 / 4 / π) * (muB * ge) ^ 2 / hbar

end

/-! ### Exponential model -/

noncomputable section

/-- The `info` dictionary of `bg_exp`. -/
def bg_exp_info : ModelInfo where
  Parameters := ["Decay Rate"]
  Units := ["us-1"]
  Start := [0.35]
  Lower := [0]
  Upper := [200]

/-- The fixed parameter count of bg_exp. -/
def bg_exp_npar : ℕ := 1

/-- Model `bg_exp`: exponential background model, `B = np.exp(-lam*kappa*np.abs(t))`. -/
def bg_exp (args : List PyVal) : ModelResult :=
  if args.isEmpty then .info bg_exp_info
  else
    match _parsargs args bg_exp_npar with
    | .error e => .error e
    | .ok (t, p, lam) =>
        let kappa := p.getD 0 0
        .curve (t.map fun ti => Real.exp (-lam * kappa * |ti|))

end

/-! ### Homogeneous 3D model -/

noncomputable section

/-- The `info` dictionary of `bg_hom3d`. -/
def bg_hom3d_info : ModelInfo where
  Parameters := ["Concentration of pumped spins"]
  Units := ["uM"]
  Start := [50]
  Lower := [0.01]
  Upper := [5000]

/-- The fixed parameter count of bg_hom3d. -/
def bg_hom3d_npar : ℕ := 1

/-- Model `bg_hom3d`: background from a homogeneous distribution of spins in a 3D
medium, `B = np.exp(-8*pi**2/9/sqrt(3)*lam*conc*D*np.abs(t*1e-6))` with the
concentration converted by `conc*1e-6*1e3*NA`. -/
def bg_hom3d (args : List PyVal) : ModelResult :=
  if args.isEmpty then .info bg_hom3d_info
  else
    match _parsargs args bg_hom3d_npar with
    | .error e => .error e
    | .ok (t, p, lam) =>
        let conc := p.getD 0 0
        let conc := conc * 1e-6 * 1e3 * NA
        .curve (t.map fun ti =>
          Real.exp (-8 * π ^ 2 / 9 / Real.sqrt 3 * lam * conc * Dconst * |ti * 1e-6|))

end

/-! ### Stretched-exponential family -/

noncomputable section

/-- The `info` dictionary of `bg_strexp`. -/
def bg_strexp_info : ModelInfo where
  Parameters := ["Decay Rate", "Stretch factor"]
  Units := ["us-1", ""]
  Start := [0.25, 1]
  Lower := [0, 0]
  Upper := [200, 6]

/-- The fixed parameter count of bg_strexp. -/
def bg_strexp_npar : ℕ := 2

/-- Model `bg_strexp`: stretched exponential, `B = np.exp(-lam*kappa*abs(t)**d)`
(`**` with a real exponent is `Real.rpow`). -/
def bg_strexp (args : List PyVal) : ModelResult :=
  if args.isEmpty then .info bg_strexp_info
  else
    match _parsargs args bg_strexp_npar with
    | .error e => .error e
    | .ok (t, p, lam) =>
        let kappa := p.getD 0 0
        let d := p.getD 1 0
        .curve (t.map fun ti => Real.exp (-lam * kappa * |ti| ^ d))

/-- The `info` dictionary of `bg_prodstrexp`. -/
def bg_prodstrexp_info : ModelInfo where
  Parameters := ["Decay Rate of 1st component", "Stretch factor of 1st component",
    "Decay Rate of 2nd component", "Stretch factor of 2nd component"]
  Units := ["us-1", "", "us-1", ""]
  Start := [0.25, 1, 0.25, 1]
  Lower := [0, 0, 0, 0]
  Upper := [200, 6, 200, 6]

/-- The fixed parameter count of bg_prodstrexp. -/
def bg_prodstrexp_npar : ℕ := 4

/-- Model `bg_prodstrexp`: the two stretched-exponential arrays are computed from
the same time axis and multiplied elementwise (`B = strexp1*strexp2`). -/
def bg_prodstrexp (args : List PyVal) : ModelResult :=
  if args.isEmpty then .info bg_prodstrexp_info
  else
    match _parsargs args bg_prodstrexp_npar with
    | .error e => .error e
    | .ok (t, p, lam) =>
        let kappa1 := p.getD 0 0
        let d1 := p.getD 1 0
        let kappa2 := p.getD 2 0
        let d2 := p.getD 3 0
        let strexp1 := t.map fun ti => Real.exp (-lam * kappa1 * |ti| ^ d1)
        let strexp2 := t.map fun ti => Real.exp (-lam * kappa2 * |ti| ^ d2)
        .curve (List.zipWith (· * ·) strexp1 strexp2)

/-- The `info` dictionary of `bg_sumstrexp`. -/
def bg_sumstrexp_info : ModelInfo where
  Parameters := ["Decay Rate of 1st component", "Stretch factor of 1st component",
    "Amplitude of 1st component", "Decay Rate of 2nd component",
    "Stretch factor of 2nd component"]
  Units := ["us-1", "", "", "us-1", ""]
  Start := [0.25, 1, 0.5, 0.25, 1]
  Lower := [0, 0, 0, 0, 0]
  Upper := [200, 6, 1, 200, 6]

/-- The fixed parameter count of bg_sumstrexp. -/
def bg_sumstrexp_npar : ℕ := 5

/-- Model `bg_sumstrexp`: weighted sum of two stretched exponentials,
`B = w1*strexp1 + (1-w1)*strexp2`. -/
def bg_sumstrexp (args : List PyVal) : ModelResult :=
  if args.isEmpty then .info bg_sumstrexp_info
  else
    match _parsargs args bg_sumstrexp_npar with
    | .error e => .error e
    | .ok (t, p, lam) =>
        let kappa1 := p.getD 0 0
        let d1 := p.getD 1 0
        let w1 := p.getD 2 0
        let kappa2 := p.getD 3 0
        let d2 := p.getD 4 0
        let strexp1 := t.map fun ti => Real.exp (-lam * kappa1 * |ti| ^ d1)
        let strexp2 := t.map fun ti => Real.exp (-lam * kappa2 * |ti| ^ d2)
        .curve (List.zipWith (fun a b => w1 * a + (1 - w1) * b) strexp1 strexp2)

end

/-! ### Excluded-volume model -/

noncomputable section

/-- Python `max` over a numpy array; the lookup table supplied by the
provider is nonempty, an empty list is given the junk value 0. -/
def maxD : List ℝ → ℝ
  | [] => 0
  | x :: xs => xs.foldl max x

/-- The `info` dictionary of `bg_hom3dex`. -/
def bg_hom3dex_info : ModelInfo where
  Parameters := ["Fractal Concentration of pumped spins", "Fractal dimensionality"]
  Units := ["umol/dm^d", ""]
  Start := [50, 1]
  Lower := [0.01, 0.01]
  Upper := [5000, 20]

/-- The fixed parameter count of bg_hom3dex. -/
def bg_hom3dex_npar : ℕ := 2

/-- Model `bg_hom3dex`: background with excluded-volume effects.  The lookup table
`(dR_tab, alphas_tab)` returned by `load_exvolume_redfactor` and numpy's
linear interpolation `np.interp` are external collaborators, passed in as
parameters.  With `R == 0` the reduction factor is the scalar 1; otherwise
each time sample's `dR` is interpolated from the table when below
`max(dR_tab)` and otherwise given the asymptote `1 - (3/2/pi)*sqrt(3)/dR`. -/
def bg_hom3dex (interp : ℝ → List ℝ → List ℝ → ℝ) (dR_tab alphas_tab : List ℝ)
    (args : List PyVal) : ModelResult :=
  if args.isEmpty then .info bg_hom3dex_info
  else
    match _parsargs args bg_hom3dex_npar with
    | .error e => .error e
    | .ok (t, p, lam) =>
        let conc := p.getD 0 0
        let R := p.getD 1 0
        let conc := conc * 1e-6 * 1e3 * NA
        let A := (mu0 / 4 / π) * (ge * muB) ^ 2 / hbar
        if R = 0 then
          .curve (t.map fun ti =>
            Real.exp (-lam * conc * (8 * π ^ 2 / 9 / Real.sqrt 3 * A * |ti * 1e-6| * 1)))
        else
          let dR := t.map fun ti => A * |ti * 1e-6| / (R * 1e-9) ^ 3
          let alpha := dR.map fun x =>
            if x < maxD dR_tab then interp x dR_tab alphas_tab
            else 1 - (3 / 2 / π) * Real.sqrt 3 / x
          let K := List.zipWith
            (fun ti a => 8 * π ^ 2 / 9 / Real.sqrt 3 * A * |ti * 1e-6| * a) t alpha
          .curve (K.map fun k => Real.exp (-lam * conc * k))

end

/-! ### Fractal-dimension model -/

noncomputable section

/-- Elementwise combination of two numpy 1-D arrays under numpy's
broadcasting rules: equal lengths combine elementwise, a length-1 operand is
broadcast, anything else raises a `ValueError`. -/
def broadcast2 (f : ℝ → ℝ → ℝ) (xs ys : List ℝ) : Option (List ℝ) :=
  if xs.length = ys.length then some (List.zipWith f xs ys)
  else if xs.length = 1 then some (ys.map fun y => f (xs.headD 0) y)
  else if ys.length = 1 then some (xs.map fun x => f x (ys.headD 0))
  else none

/-- The `info` dictionary of `bg_homfractal`.  The dimensionality bounds use
the source's `np.finfo(float).eps`, the double-precision machine epsilon. -/
def bg_homfractal_info : ModelInfo where
  Parameters := ["Fractal Concentration of pumped spins", "Fractal dimensionality"]
  Units := ["umol/dm^d", ""]
  Start := [50, 3]
  Lower := [0.01, 0 + 2 ^ (-52 : ℤ)]
  Upper := [5000, 6 - 2 ^ (-52 : ℤ)]

/-- The fixed parameter count of bg_homfractal. -/
def bg_homfractal_npar : ℕ := 2

/-- Model `bg_homfractal`: background from a homogeneous distribution of spins in a
fractal medium.  `quad` is scipy's `scp.integrate.quad`, an external
collaborator passed in as a parameter; as in scipy it returns the PAIR
(integral estimate, absolute error).  The source binds this pair directly
(`Lam = scp.integrate.quad(integrand,0,1,limit=1000)`), so in the general
branch the scalar prefactor is multiplied into a 2-element array, which is
then combined with `abs(t*1e-6)**(d/3)` under numpy broadcasting. -/
def bg_homfractal (quad : (ℝ → ℝ) → ℝ → ℝ → ℕ → ℝ × ℝ)
    (args : List PyVal) : ModelResult :=
  if args.isEmpty then .info bg_homfractal_info
  else
    match _parsargs args bg_homfractal_npar with
    | .error e => .error e
    | .ok (t, p, lam) =>
        let conc := p.getD 0 0
        let d := p.getD 1 0
        let conc := conc * 1e-6 * (10 : ℝ) ^ (-d) * NA
        if d = 3 then
          let c := -π / 2
          let Lam := 4 / 3 / Real.sqrt 3
          .curve (t.map fun ti =>
            Real.exp (4 * π / 3 * c * Lam * lam * conc * Dconst ^ (d / 3) *
              |ti * 1e-6| ^ (d / 3)))
        else
          let c := Real.cos (d * π / 6) * Real.Gamma (-d / 3)
          let Lam := quad (fun z => |1 - 3 * z ^ 2| ^ (d / 3)) 0 1 1000
          let pre := 4 * π / 3 * c
          let arr := [pre * Lam.1, pre * Lam.2]
          let arr := arr.map fun x => x * lam * conc * Dconst ^ (d / 3)
          let tArr := t.map fun ti => |ti * 1e-6| ^ (d / 3)
          match broadcast2 (· * ·) arr tArr with
          | some prod => .curve (prod.map Real.exp)
          | none => .error .broadcastError

end

/-! ### Polynomial models -/

noncomputable section

/-- Embedding of `np.polyval`: Horner evaluation of a coefficient list given in
descending-power order. -/
def polyval (p : List ℝ) (x : ℝ) : ℝ :=
  p.foldl (fun acc c => acc * x + c) 0

/-- The in-place slice assignment `p[:-1] = lam*p[:-1]`: every entry except
the last is scaled by `lam`. -/
def scaleAllButLast (lam : ℝ) : List ℝ → List ℝ
  | [] => []
  | [x] => [x]
  | x :: y :: xs => lam * x :: scaleAllButLast lam (y :: xs)

/-- The `info` dictionary of `bg_poly1`. -/
def bg_poly1_info : ModelInfo where
  Parameters := ["Intercept", "1st-order coefficient"]
  Units := ["", "us-1"]
  Start := [1, -1]
  Lower := [0, -200]
  Upper := [200, 200]

/-- The fixed parameter count of bg_poly1. -/
def bg_poly1_npar : ℕ := 2

/-- Model `bg_poly1`: first-order polynomial background.  The coefficient vector is
reversed (`np.flip`) into descending-power order, copied (`np.copy`), every
coefficient except the intercept is scaled by `lam` in the copy, and the
polynomial is evaluated at `abs(t)`.  The source's stray `print(param)`
statements are output only and do not affect the value. -/
def bg_poly1 (args : List PyVal) : ModelResult :=
  if args.isEmpty then .info bg_poly1_info
  else
    match _parsargs args bg_poly1_npar with
    | .error e => .error e
    | .ok (t, p, lam) =>
        let coeffs := scaleAllButLast lam p.reverse
        .curve (t.map fun ti => polyval coeffs |ti|)

/-- The `info` dictionary of `bg_poly2`. -/
def bg_poly2_info : ModelInfo where
  Parameters := ["Intercept", "1st-order coefficient", "2nd-order coefficient"]
  Units := ["", "us-1", "us-2"]
  Start := [1, -1, -1]
  Lower := [0, -200, -200]
  Upper := [200, 200, 200]

/-- The fixed parameter count of bg_poly2. -/
def bg_poly2_npar : ℕ := 3

/-- Model `bg_poly2`: second-order polynomial background, same evaluation scheme as
`bg_poly1` with three coefficients. -/
def bg_poly2 (args : List PyVal) : ModelResult :=
  if args.isEmpty then .info bg_poly2_info
  else
    match _parsargs args bg_poly2_npar with
    | .error e => .error e
    | .ok (t, p, lam) =>
        let coeffs := scaleAllButLast lam p.reverse
        .curve (t.map fun ti => polyval coeffs |ti|)

/-- The `info` dictionary of `bg_poly3`. -/
def bg_poly3_info : ModelInfo where
  Parameters := ["Intercept", "1st-order coefficient", "2nd-order coefficient",
    "3rd-order coefficient"]
  Units := ["", "us-1", "us-2", "us-3"]
  Start := [1, -1, -1, -1]
  Lower := [0, -200, -200, -200]
  Upper := [200, 200, 200, 200]

/-- The fixed parameter count of bg_poly3. -/
def bg_poly3_npar : ℕ := 4

/-- Model `bg_poly3`: third-order polynomial background, same evaluation scheme as
`bg_poly1` with four coefficients. -/
def bg_poly3 (args : List PyVal) : ModelResult :=
  if args.isEmpty then .info bg_poly3_info
  else
    match _parsargs args bg_poly3_npar with
    | .error e => .error e
    | .ok (t, p, lam) =>
        let coeffs := scaleAllButLast lam p.reverse
        .curve (t.map fun ti => polyval coeffs |ti|)

end

/-! ### Heap-level model of the polynomial evaluators' mutation

The polynomial models are the only place in the module that performs an
in-place array write (`p[:-1] = lam*p[:-1]`).  To settle whether the caller's
arrays survive a call, the buffer/view structure of numpy is made explicit:
a store maps buffer ids to contents, `np.flip` yields a reversed view of the
same buffer, `np.copy` materializes a view into a fresh buffer, and the slice
assignment writes through the reference into its buffer. -/

noncomputable section

/-- A numpy array reference: a buffer id, viewed either directly or through
the index-reversing view produced by `np.flip`. -/
structure ArrRef where
  id : ℕ
  rev : Bool

/-- The heap of array buffers. -/
def Store : Type := ℕ → List ℝ

/-- The sequence of values an array reference presents. -/
def readArr (s : Store) (a : ArrRef) : List ℝ :=
  if a.rev then (s a.id).reverse else s a.id

/-- Overwrite the values an array reference presents, writing through the
view into the underlying buffer. -/
def writeArr (s : Store) (a : ArrRef) (v : List ℝ) : Store :=
  Function.update s a.id (if a.rev then v.reverse else v)

/-- Embedding of `np.flip`: a reversed view of the same buffer — no copy. -/
def flipView (a : ArrRef) : ArrRef := ⟨a.id, !a.rev⟩

/-- Embedding of `np.copy`: materialize a view's values into the fresh buffer `fresh`. -/
def copyArr (s : Store) (a : ArrRef) (fresh : ℕ) : Store × ArrRef :=
  (Function.update s fresh (readArr s a), ⟨fresh, false⟩)

/-- The heap-level trace of the polynomial models' compute mode after
argument resolution: `p = np.copy(np.flip(param)); p[:-1] = lam*p[:-1];
B = np.polyval(p, abs(t))`.  Returns the final store and the curve. -/
def bg_polyTrace (s : Store) (tRef paramRef : ArrRef) (lam : ℝ) (fresh : ℕ) :
    Store × List ℝ :=
  let v := flipView paramRef
  let sp := copyArr s v fresh
  let s1 := sp.1
  let p := sp.2
  let s2 := writeArr s1 p (scaleAllButLast lam (readArr s1 p))
  (s2, (readArr s2 tRef).map fun ti => polyval (readArr s2 p) |ti|)

end

/-! ### Descriptor well-formedness -/

noncomputable section

/-- All five fields of a model descriptor have length `n`. -/
def descOk (i : ModelInfo) (n : ℕ) : Prop :=
  i.Parameters.length = n ∧ i.Units.length = n ∧ i.Start.length = n ∧
    i.Lower.length = n ∧ i.Upper.length = n

/-- A concrete two-buffer store (a time axis in buffer 0, a coefficient
vector in buffer 1) used to exercise the heap-level trace. -/
def wStore : Store := fun n => if n = 0 then [0, 2] else if n = 1 then [1, -1] else []

end

/-! ## Theorems -/

/-- A two-argument call resolves with the modulation depth defaulted to 1
when the parameter count matches. -/
theorem _parsargs_two_ok (tv pv : PyVal) (n : ℕ) (h : (atleast_1d pv).length = n) :
    _parsargs [tv, pv] n = .ok (atleast_1d tv, atleast_1d pv, 1) := by
  simp [_parsargs, h]

/-- A three-argument call resolves with the explicit modulation depth when
the parameter count matches. -/
theorem _parsargs_three_ok (tv pv lv : PyVal) (n : ℕ)
    (h : (atleast_1d pv).length = n) :
    _parsargs [tv, pv, lv] n = .ok (atleast_1d tv, atleast_1d pv, asFloat lv) := by
  simp [_parsargs, h]

/-- C5: `bg_poly1(t, [a0, a1], lam)` is `a0 + lam*a1*|t|` elementwise — the
reversed coefficient vector is scaled by `lam` in every entry except the
intercept — and on the concrete scenario `t = [0, 2]`, `param = [1, -1]`,
`lam = 1` the curve is `[1, -1]`. -/
theorem bg_poly1_affine :
    (∀ (t : List ℝ) (a0 a1 lam : ℝ),
      bg_poly1 [.array t, .array [a0, a1], .scalar lam] =
        .curve (t.map fun x => a0 + lam * a1 * |x|)) ∧
    bg_poly1 [.array [0, 2], .array [1, -1], .scalar 1] = .curve [1, -1] := by
  have key : ∀ (t : List ℝ) (a0 a1 lam : ℝ),
      bg_poly1 [.array t, .array [a0, a1], .scalar lam] =
        .curve (t.map fun x => a0 + lam * a1 * |x|) := by
    intro t a0 a1 lam
    have h1 : bg_poly1 [.array t, .array [a0, a1], .scalar lam] =
        .curve (t.map fun ti => polyval (scaleAllButLast lam [a1, a0]) |ti|) := by
      simp [bg_poly1, bg_poly1_npar, _parsargs, atleast_1d, asFloat]
    rw [h1]
    congr 1
    refine List.map_congr_left fun x _ => ?_
    simp [polyval, scaleAllButLast]
    ring
  refine ⟨key, ?_⟩
  rw [key [0, 2] 1 (-1) 1]
  norm_num

/-- C8: `bg_exp(t, [kappa], 1)` is `exp(-kappa*|t|)` elementwise; a
two-argument call defaults the modulation depth to 1; and the concrete
scenario `t = [0, 1, 2]`, `param = [0.5]` yields
`[1, exp(-0.5), exp(-1)]`. -/
theorem bg_exp_eval :
    (∀ (t : List ℝ) (kappa : ℝ), 0 ≤ kappa →
      bg_exp [.array t, .array [kappa], .scalar 1] =
        .curve (t.map fun x => Real.exp (-(kappa * |x|)))) ∧
    (∀ tv pv : PyVal, bg_exp [tv, pv] = bg_exp [tv, pv, .scalar 1]) ∧
    bg_exp [.array [0, 1, 2], .array [0.5]] =
      .curve [1, Real.exp (-0.5), Real.exp (-1)] := by
  have key : ∀ (t : List ℝ) (kappa : ℝ),
      bg_exp [.array t, .array [kappa], .scalar 1] =
        .curve (t.map fun x => Real.exp (-(kappa * |x|))) := by
    intro t kappa
    simp [bg_exp, bg_exp_npar, _parsargs, atleast_1d, asFloat]
  refine ⟨fun t kappa _ => key t kappa, ?_, ?_⟩
  · intro tv pv
    by_cases h : (atleast_1d pv).length = bg_exp_npar
    · simp [bg_exp, _parsargs, h, asFloat]
    · simp [bg_exp, _parsargs, h]
  · have h2 : bg_exp [.array [0, 1, 2], .array [0.5]] =
        bg_exp [.array [0, 1, 2], .array [0.5], .scalar 1] := by
      simp [bg_exp, bg_exp_npar, _parsargs, atleast_1d, asFloat]
    rw [h2, key [0, 1, 2] 0.5]
    norm_num

/-- Witness for C8 at `t = [3]`, `kappa = 2`. -/
theorem bg_exp_eval_witness :
    bg_exp [.array [3], .array [2], .scalar 1] =
      .curve ([(3 : ℝ)].map fun x => Real.exp (-(2 * |x|))) :=
  bg_exp_eval.1 [3] 2 (by norm_num)

/-- C10: `bg_prodstrexp(t, [kappa1, d1, kappa2, d2], lam)` is the elementwise
product of the two corresponding `bg_strexp` curves. -/
theorem bg_prodstrexp_factorizes :
    ∀ (t : List ℝ) (kappa1 d1 kappa2 d2 lam : ℝ),
      bg_prodstrexp [.array t, .array [kappa1, d1, kappa2, d2], .scalar lam] =
        .curve (List.zipWith (· * ·)
          (t.map fun x => Real.exp (-lam * kappa1 * |x| ^ d1))
          (t.map fun x => Real.exp (-lam * kappa2 * |x| ^ d2))) ∧
      bg_strexp [.array t, .array [kappa1, d1], .scalar lam] =
        .curve (t.map fun x => Real.exp (-lam * kappa1 * |x| ^ d1)) ∧
      bg_strexp [.array t, .array [kappa2, d2], .scalar lam] =
        .curve (t.map fun x => Real.exp (-lam * kappa2 * |x| ^ d2)) := by
  intro t kappa1 d1 kappa2 d2 lam
  refine ⟨?_, ?_, ?_⟩
  · simp [bg_prodstrexp, bg_prodstrexp_npar, _parsargs, atleast_1d, asFloat]
  · simp [bg_strexp, bg_strexp_npar, _parsargs, atleast_1d, asFloat]
  · simp [bg_strexp, bg_strexp_npar, _parsargs, atleast_1d, asFloat]

/-- C7: every model called with zero arguments returns its descriptor
record, and all five descriptor fields have length equal to the model's
fixed parameter count `npar` — the same count its compute mode enforces. -/
theorem descriptor_fields_lengths :
    bg_exp [] = .info bg_exp_info ∧ descOk bg_exp_info bg_exp_npar ∧
    bg_hom3d [] = .info bg_hom3d_info ∧ descOk bg_hom3d_info bg_hom3d_npar ∧
    (∀ interp dR_tab alphas_tab,
      bg_hom3dex interp dR_tab alphas_tab [] = .info bg_hom3dex_info) ∧
    descOk bg_hom3dex_info bg_hom3dex_npar ∧
    (∀ quad, bg_homfractal quad [] = .info bg_homfractal_info) ∧
    descOk bg_homfractal_info bg_homfractal_npar ∧
    bg_strexp [] = .info bg_strexp_info ∧ descOk bg_strexp_info bg_strexp_npar ∧
    bg_prodstrexp [] = .info bg_prodstrexp_info ∧
    descOk bg_prodstrexp_info bg_prodstrexp_npar ∧
    bg_sumstrexp [] = .info bg_sumstrexp_info ∧
    descOk bg_sumstrexp_info bg_sumstrexp_npar ∧
    bg_poly1 [] = .info bg_poly1_info ∧ descOk bg_poly1_info bg_poly1_npar ∧
    bg_poly2 [] = .info bg_poly2_info ∧ descOk bg_poly2_info bg_poly2_npar ∧
    bg_poly3 [] = .info bg_poly3_info ∧ descOk bg_poly3_info bg_poly3_npar := by
  exact ⟨rfl, ⟨rfl, rfl, rfl, rfl, rfl⟩, rfl, ⟨rfl, rfl, rfl, rfl, rfl⟩,
    fun _ _ _ => rfl, ⟨rfl, rfl, rfl, rfl, rfl⟩,
    fun _ => rfl, ⟨rfl, rfl, rfl, rfl, rfl⟩,
    rfl, ⟨rfl, rfl, rfl, rfl, rfl⟩, rfl, ⟨rfl, rfl, rfl, rfl, rfl⟩,
    rfl, ⟨rfl, rfl, rfl, rfl, rfl⟩, rfl, ⟨rfl, rfl, rfl, rfl, rfl⟩,
    rfl, ⟨rfl, rfl, rfl, rfl, rfl⟩, rfl, ⟨rfl, rfl, rfl, rfl, rfl⟩⟩

/-- C4: with the second parameter exactly 0, `bg_hom3dex` short-circuits the
reduction factor to 1 and returns
`exp(-lam * conc * (8*pi^2/(9*sqrt 3)) * A * |t*1e-6|)` elementwise — a
single curve not consulting the lookup table or the interpolation routine
(the statement quantifies over both). -/
theorem bg_hom3dex_zero_exclusion :
    ∀ (interp : ℝ → List ℝ → List ℝ → ℝ) (dR_tab alphas_tab : List ℝ)
      (t : List ℝ) (conc lam : ℝ),
      bg_hom3dex interp dR_tab alphas_tab [.array t, .array [conc, 0], .scalar lam] =
        .curve (t.map fun x =>
          Real.exp (-lam * (conc * 1e-6 * 1e3 * NA) * (8 * π ^ 2 / (9 * Real.sqrt 3)) *
            ((mu0 / 4 / π) * (ge * muB) ^ 2 / hbar) * |x * 1e-6|)) := by
  intro interp dR_tab alphas_tab t conc lam
  have h1 : bg_hom3dex interp dR_tab alphas_tab
      [.array t, .array [conc, 0], .scalar lam] =
      .curve (t.map fun ti =>
        Real.exp (-lam * (conc * 1e-6 * 1e3 * NA) *
          (8 * π ^ 2 / 9 / Real.sqrt 3 * ((mu0 / 4 / π) * (ge * muB) ^ 2 / hbar) *
            |ti * 1e-6| * 1))) := by
    simp [bg_hom3dex, bg_hom3dex_npar, _parsargs, atleast_1d, asFloat]
  rw [h1]
  congr 1
  refine List.map_congr_left fun x _ => ?_
  congr 1
  ring

/-- A two-argument call with a wrong parameter count fails with the
mismatch error, reporting the expected and the received count. -/
theorem _parsargs_mismatch_two (tv pv : PyVal) (n : ℕ)
    (h : (atleast_1d pv).length ≠ n) :
    _parsargs [tv, pv] n = .error (.paramCountMismatch n (atleast_1d pv).length) := by
  simp [_parsargs, h]

/-- A three-argument call with a wrong parameter count fails with the
mismatch error, reporting the expected and the received count. -/
theorem _parsargs_mismatch_three (tv pv : PyVal) (n : ℕ)
    (h : (atleast_1d pv).length ≠ n) (lv : PyVal) :
    _parsargs [tv, pv, lv] n = .error (.paramCountMismatch n (atleast_1d pv).length) := by
  simp [_parsargs, h]

/-- C3: for every model, a compute-mode call whose (coerced) parameter
vector has a length other than the model's `npar` fails with the
parameter-count-mismatch error carrying both the expected and the received
count — whatever numeric values were passed, so before any physical
computation. -/
theorem param_count_gate :
    (∀ tv pv : PyVal, (atleast_1d pv).length ≠ bg_exp_npar →
      bg_exp [tv, pv] =
        .error (.paramCountMismatch bg_exp_npar (atleast_1d pv).length) ∧
      ∀ lv : PyVal, bg_exp [tv, pv, lv] =
        .error (.paramCountMismatch bg_exp_npar (atleast_1d pv).length)) ∧
    (∀ tv pv : PyVal, (atleast_1d pv).length ≠ bg_hom3d_npar →
      bg_hom3d [tv, pv] =
        .error (.paramCountMismatch bg_hom3d_npar (atleast_1d pv).length) ∧
      ∀ lv : PyVal, bg_hom3d [tv, pv, lv] =
        .error (.paramCountMismatch bg_hom3d_npar (atleast_1d pv).length)) ∧
    (∀ (interp : ℝ → List ℝ → List ℝ → ℝ) (dR_tab alphas_tab : List ℝ)
        (tv pv : PyVal), (atleast_1d pv).length ≠ bg_hom3dex_npar →
      bg_hom3dex interp dR_tab alphas_tab [tv, pv] =
        .error (.paramCountMismatch bg_hom3dex_npar (atleast_1d pv).length) ∧
      ∀ lv : PyVal, bg_hom3dex interp dR_tab alphas_tab [tv, pv, lv] =
        .error (.paramCountMismatch bg_hom3dex_npar (atleast_1d pv).length)) ∧
    (∀ (quad : (ℝ → ℝ) → ℝ → ℝ → ℕ → ℝ × ℝ) (tv pv : PyVal),
        (atleast_1d pv).length ≠ bg_homfractal_npar →
      bg_homfractal quad [tv, pv] =
        .error (.paramCountMismatch bg_homfractal_npar (atleast_1d pv).length) ∧
      ∀ lv : PyVal, bg_homfractal quad [tv, pv, lv] =
        .error (.paramCountMismatch bg_homfractal_npar (atleast_1d pv).length)) ∧
    (∀ tv pv : PyVal, (atleast_1d pv).length ≠ bg_strexp_npar →
      bg_strexp [tv, pv] =
        .error (.paramCountMismatch bg_strexp_npar (atleast_1d pv).length) ∧
      ∀ lv : PyVal, bg_strexp [tv, pv, lv] =
        .error (.paramCountMismatch bg_strexp_npar (atleast_1d pv).length)) ∧
    (∀ tv pv : PyVal, (atleast_1d pv).length ≠ bg_prodstrexp_npar →
      bg_prodstrexp [tv, pv] =
        .error (.paramCountMismatch bg_prodstrexp_npar (atleast_1d pv).length) ∧
      ∀ lv : PyVal, bg_prodstrexp [tv, pv, lv] =
        .error (.paramCountMismatch bg_prodstrexp_npar (atleast_1d pv).length)) ∧
    (∀ tv pv : PyVal, (atleast_1d pv).length ≠ bg_sumstrexp_npar →
      bg_sumstrexp [tv, pv] =
        .error (.paramCountMismatch bg_sumstrexp_npar (atleast_1d pv).length) ∧
      ∀ lv : PyVal, bg_sumstrexp [tv, pv, lv] =
        .error (.paramCountMismatch bg_sumstrexp_npar (atleast_1d pv).length)) ∧
    (∀ tv pv : PyVal, (atleast_1d pv).length ≠ bg_poly1_npar →
      bg_poly1 [tv, pv] =
        .error (.paramCountMismatch bg_poly1_npar (atleast_1d pv).length) ∧
      ∀ lv : PyVal, bg_poly1 [tv, pv, lv] =
        .error (.paramCountMismatch bg_poly1_npar (atleast_1d pv).length)) ∧
    (∀ tv pv : PyVal, (atleast_1d pv).length ≠ bg_poly2_npar →
      bg_poly2 [tv, pv] =
        .error (.paramCountMismatch bg_poly2_npar (atleast_1d pv).length) ∧
      ∀ lv : PyVal, bg_poly2 [tv, pv, lv] =
        .error (.paramCountMismatch bg_poly2_npar (atleast_1d pv).length)) ∧
    (∀ tv pv : PyVal, (atleast_1d pv).length ≠ bg_poly3_npar →
      bg_poly3 [tv, pv] =
        .error (.paramCountMismatch bg_poly3_npar (atleast_1d pv).length) ∧
      ∀ lv : PyVal, bg_poly3 [tv, pv, lv] =
        .error (.paramCountMismatch bg_poly3_npar (atleast_1d pv).length)) := by
  refine ⟨?_, ?_, ?_, ?_, ?_, ?_, ?_, ?_, ?_, ?_⟩
  · intro tv pv h
    exact ⟨by simp [bg_exp, _parsargs_mismatch_two tv pv _ h],
      fun lv => by simp [bg_exp, _parsargs_mismatch_three tv pv _ h lv]⟩
  · intro tv pv h
    exact ⟨by simp [bg_hom3d, _parsargs_mismatch_two tv pv _ h],
      fun lv => by simp [bg_hom3d, _parsargs_mismatch_three tv pv _ h lv]⟩
  · intro interp dR_tab alphas_tab tv pv h
    exact ⟨by simp [bg_hom3dex, _parsargs_mismatch_two tv pv _ h],
      fun lv => by simp [bg_hom3dex, _parsargs_mismatch_three tv pv _ h lv]⟩
  · intro quad tv pv h
    exact ⟨by simp [bg_homfractal, _parsargs_mismatch_two tv pv _ h],
      fun lv => by simp [bg_homfractal, _parsargs_mismatch_three tv pv _ h lv]⟩
  · intro tv pv h
    exact ⟨by simp [bg_strexp, _parsargs_mismatch_two tv pv _ h],
      fun lv => by simp [bg_strexp, _parsargs_mismatch_three tv pv _ h lv]⟩
  · intro tv pv h
    exact ⟨by simp [bg_prodstrexp, _parsargs_mismatch_two tv pv _ h],
      fun lv => by simp [bg_prodstrexp, _parsargs_mismatch_three tv pv _ h lv]⟩
  · intro tv pv h
    exact ⟨by simp [bg_sumstrexp, _parsargs_mismatch_two tv pv _ h],
      fun lv => by simp [bg_sumstrexp, _parsargs_mismatch_three tv pv _ h lv]⟩
  · intro tv pv h
    exact ⟨by simp [bg_poly1, _parsargs_mismatch_two tv pv _ h],
      fun lv => by simp [bg_poly1, _parsargs_mismatch_three tv pv _ h lv]⟩
  · intro tv pv h
    exact ⟨by simp [bg_poly2, _parsargs_mismatch_two tv pv _ h],
      fun lv => by simp [bg_poly2, _parsargs_mismatch_three tv pv _ h lv]⟩
  · intro tv pv h
    exact ⟨by simp [bg_poly3, _parsargs_mismatch_two tv pv _ h],
      fun lv => by simp [bg_poly3, _parsargs_mismatch_three tv pv _ h lv]⟩

/-- Witness for C3: each model called with a 6-entry parameter vector fails
with the mismatch error naming its own expected count and the received 6. -/
theorem param_count_gate_witness :
    bg_exp [.array [0], .array [1, 2, 3, 4, 5, 6]] =
      .error (.paramCountMismatch 1 6) ∧
    bg_hom3d [.array [0], .array [1, 2, 3, 4, 5, 6]] =
      .error (.paramCountMismatch 1 6) ∧
    bg_hom3dex (fun _ _ _ => 0) [] [] [.array [0], .array [1, 2, 3, 4, 5, 6]] =
      .error (.paramCountMismatch 2 6) ∧
    bg_homfractal (fun _ _ _ _ => (0, 0)) [.array [0], .array [1, 2, 3, 4, 5, 6]] =
      .error (.paramCountMismatch 2 6) ∧
    bg_strexp [.array [0], .array [1, 2, 3, 4, 5, 6]] =
      .error (.paramCountMismatch 2 6) ∧
    bg_prodstrexp [.array [0], .array [1, 2, 3, 4, 5, 6]] =
      .error (.paramCountMismatch 4 6) ∧
    bg_sumstrexp [.array [0], .array [1, 2, 3, 4, 5, 6]] =
      .error (.paramCountMismatch 5 6) ∧
    bg_poly1 [.array [0], .array [1, 2, 3, 4, 5, 6]] =
      .error (.paramCountMismatch 2 6) ∧
    bg_poly2 [.array [0], .array [1, 2, 3, 4, 5, 6]] =
      .error (.paramCountMismatch 3 6) ∧
    bg_poly3 [.array [0], .array [1, 2, 3, 4, 5, 6]] =
      .error (.paramCountMismatch 4 6) := by
  obtain ⟨h1, h2, h3, h4, h5, h6, h7, h8, h9, h10⟩ := param_count_gate
  exact ⟨(h1 _ _ (by decide)).1, (h2 _ _ (by decide)).1,
    (h3 _ [] [] _ _ (by decide)).1, (h4 _ _ _ (by decide)).1,
    (h5 _ _ (by decide)).1, (h6 _ _ (by decide)).1, (h7 _ _ (by decide)).1,
    (h8 _ _ (by decide)).1, (h9 _ _ (by decide)).1, (h10 _ _ (by decide)).1⟩

/-- The resolver `_parsargs` raises the invalid-argument-count error for any count other
than 2 or 3. -/
theorem _parsargs_badcount :
    ∀ (args : List PyVal) (n : ℕ), args.length = 1 ∨ 4 ≤ args.length →
      _parsargs args n = .error .invalidArgCount
  | [], _, h => by rcases h with h | h <;> simp at h
  | [_], _, _ => rfl
  | [_, _], _, h => by rcases h with h | h <;> simp at h
  | [_, _, _], _, h => by rcases h with h | h <;> simp at h
  | _ :: _ :: _ :: _ :: _, _, _ => rfl

/-- C6: for every model, a call with exactly one positional argument, or
with four or more, fails with the invalid-argument-count error. -/
theorem invalid_arg_count_gate :
    ∀ args : List PyVal, args.length = 1 ∨ 4 ≤ args.length →
      bg_exp args = .error .invalidArgCount ∧
      bg_hom3d args = .error .invalidArgCount ∧
      (∀ interp dR_tab alphas_tab,
        bg_hom3dex interp dR_tab alphas_tab args = .error .invalidArgCount) ∧
      (∀ quad, bg_homfractal quad args = .error .invalidArgCount) ∧
      bg_strexp args = .error .invalidArgCount ∧
      bg_prodstrexp args = .error .invalidArgCount ∧
      bg_sumstrexp args = .error .invalidArgCount ∧
      bg_poly1 args = .error .invalidArgCount ∧
      bg_poly2 args = .error .invalidArgCount ∧
      bg_poly3 args = .error .invalidArgCount := by
  intro args h
  obtain ⟨a, rest, rfl⟩ : ∃ a rest, args = a :: rest := by
    cases args with
    | nil => rcases h with h | h <;> simp at h
    | cons a rest => exact ⟨a, rest, rfl⟩
  have hp : ∀ n, _parsargs (a :: rest) n = .error .invalidArgCount := fun n =>
    _parsargs_badcount (a :: rest) n h
  exact ⟨by simp [bg_exp, hp], by simp [bg_hom3d, hp],
    fun interp dR_tab alphas_tab => by simp [bg_hom3dex, hp],
    fun quad => by simp [bg_homfractal, hp],
    by simp [bg_strexp, hp], by simp [bg_prodstrexp, hp],
    by simp [bg_sumstrexp, hp], by simp [bg_poly1, hp],
    by simp [bg_poly2, hp], by simp [bg_poly3, hp]⟩

/-- Witness for C6 at a one-argument call. -/
theorem invalid_arg_count_gate_witness :
    bg_exp [.scalar 0] = .error .invalidArgCount ∧
    bg_poly3 [.scalar 0] = .error .invalidArgCount := by
  obtain ⟨h1, _, _, _, _, _, _, _, _, h10⟩ :=
    invalid_arg_count_gate [.scalar 0] (by left; rfl)
  exact ⟨h1, h10⟩

/-- C2 counterexample: `bg_poly1` at `t = 0` with parameters `[2, -1]` —
both inside the documented bounds (intercept in [0, 200], coefficient in
[-200, 200]) — returns the intercept 2, not 1. -/
theorem bg_poly1_time_zero_not_one :
    bg_poly1 [.array [0], .array [2, -1], .scalar 1] = .curve [2] ∧
    (2 : ℝ) ≠ 1 := by
  constructor
  · simp [bg_poly1, bg_poly1_npar, _parsargs, atleast_1d, asFloat, polyval,
      scaleAllButLast]
  · norm_num

/-- C2 (amended): at `t = 0` the decay value is 1 for `bg_exp`, `bg_hom3d`,
`bg_hom3dex` (for any lookup table whose domain maximum is positive, and any
interpolation routine), `bg_homfractal` at `d = 3`, and the
stretched-exponential family whenever every stretch exponent is positive;
the polynomial models instead return their intercept `a0`. -/
theorem models_time_zero :
    (∀ kappa lam : ℝ, bg_exp [.array [0], .array [kappa], .scalar lam] = .curve [1]) ∧
    (∀ conc lam : ℝ, bg_hom3d [.array [0], .array [conc], .scalar lam] = .curve [1]) ∧
    (∀ (interp : ℝ → List ℝ → List ℝ → ℝ) (dR_tab alphas_tab : List ℝ)
        (conc R lam : ℝ), 0 < maxD dR_tab →
      bg_hom3dex interp dR_tab alphas_tab [.array [0], .array [conc, R], .scalar lam] =
        .curve [1]) ∧
    (∀ (quad : (ℝ → ℝ) → ℝ → ℝ → ℕ → ℝ × ℝ) (conc lam : ℝ),
      bg_homfractal quad [.array [0], .array [conc, 3], .scalar lam] = .curve [1]) ∧
    (∀ kappa d lam : ℝ, 0 < d →
      bg_strexp [.array [0], .array [kappa, d], .scalar lam] = .curve [1]) ∧
    (∀ kappa1 d1 kappa2 d2 lam : ℝ, 0 < d1 → 0 < d2 →
      bg_prodstrexp [.array [0], .array [kappa1, d1, kappa2, d2], .scalar lam] =
        .curve [1]) ∧
    (∀ kappa1 d1 w1 kappa2 d2 lam : ℝ, 0 < d1 → 0 < d2 →
      bg_sumstrexp [.array [0], .array [kappa1, d1, w1, kappa2, d2], .scalar lam] =
        .curve [1]) ∧
    (∀ a0 a1 lam : ℝ, bg_poly1 [.array [0], .array [a0, a1], .scalar lam] =
      .curve [a0]) ∧
    (∀ a0 a1 a2 lam : ℝ, bg_poly2 [.array [0], .array [a0, a1, a2], .scalar lam] =
      .curve [a0]) ∧
    (∀ a0 a1 a2 a3 lam : ℝ,
      bg_poly3 [.array [0], .array [a0, a1, a2, a3], .scalar lam] = .curve [a0]) := by
  refine ⟨?_, ?_, ?_, ?_, ?_, ?_, ?_, ?_, ?_, ?_⟩
  · intro kappa lam
    simp [bg_exp, bg_exp_npar, _parsargs, atleast_1d, asFloat]
  · intro conc lam
    simp [bg_hom3d, bg_hom3d_npar, _parsargs, atleast_1d, asFloat]
  · intro interp dR_tab alphas_tab conc R lam hmax
    by_cases hR : R = 0
    · simp [bg_hom3dex, bg_hom3dex_npar, _parsargs, atleast_1d, asFloat, hR]
    · simp [bg_hom3dex, bg_hom3dex_npar, _parsargs, atleast_1d, asFloat, hR, hmax]
  · intro quad conc lam
    have h0 : ((3 : ℝ) / 3) ≠ 0 := by norm_num
    simp [bg_homfractal, bg_homfractal_npar, _parsargs, atleast_1d, asFloat,
      Real.zero_rpow h0]
  · intro kappa d lam hd
    simp [bg_strexp, bg_strexp_npar, _parsargs, atleast_1d, asFloat,
      Real.zero_rpow hd.ne']
  · intro kappa1 d1 kappa2 d2 lam hd1 hd2
    simp [bg_prodstrexp, bg_prodstrexp_npar, _parsargs, atleast_1d, asFloat,
      Real.zero_rpow hd1.ne', Real.zero_rpow hd2.ne']
  · intro kappa1 d1 w1 kappa2 d2 lam hd1 hd2
    have hw : w1 * 1 + (1 - w1) * 1 = 1 := by ring
    simp [bg_sumstrexp, bg_sumstrexp_npar, _parsargs, atleast_1d, asFloat,
      Real.zero_rpow hd1.ne', Real.zero_rpow hd2.ne', hw]
  · intro a0 a1 lam
    simp [bg_poly1, bg_poly1_npar, _parsargs, atleast_1d, asFloat, polyval,
      scaleAllButLast]
  · intro a0 a1 a2 lam
    simp [bg_poly2, bg_poly2_npar, _parsargs, atleast_1d, asFloat, polyval,
      scaleAllButLast]
  · intro a0 a1 a2 a3 lam
    simp [bg_poly3, bg_poly3_npar, _parsargs, atleast_1d, asFloat, polyval,
      scaleAllButLast]

/-- Witness for C2 (amended), exercising every hypothesized conjunct at
concrete inputs: a table with maximum 1, and unit stretch exponents. -/
theorem models_time_zero_witness :
    bg_hom3dex (fun _ _ _ => 0) [1] [1] [.array [0], .array [50, 1], .scalar 1] =
      .curve [1] ∧
    bg_strexp [.array [0], .array [0.25, 1], .scalar 1] = .curve [1] ∧
    bg_prodstrexp [.array [0], .array [0.25, 1, 0.25, 1], .scalar 1] = .curve [1] ∧
    bg_sumstrexp [.array [0], .array [0.25, 1, 0.5, 0.25, 1], .scalar 1] =
      .curve [1] ∧
    bg_exp [.array [0], .array [0.35], .scalar 1] = .curve [1] := by
  obtain ⟨h1, _, h3, _, h5, h6, h7, _, _, _⟩ := models_time_zero
  refine ⟨h3 _ _ _ _ _ _ ?_, h5 _ _ _ (by norm_num), h6 _ _ _ _ _ (by norm_num)
    (by norm_num), h7 _ _ _ _ _ _ (by norm_num) (by norm_num), h1 _ _⟩
  simp [maxD]

/-- Reading through the `np.flip` view presents the buffer reversed. -/
theorem readArr_flipView (s : Store) (a : ArrRef) :
    readArr s (flipView a) = (readArr s a).reverse := by
  cases a with
  | mk i r => cases r <;> simp [readArr, flipView]

/-- Reading a plain (non-view) reference reads its buffer directly. -/
theorem readArr_plain (s : Store) (i : ℕ) : readArr s ⟨i, false⟩ = s i := by
  simp [readArr]

/-- C9: the polynomial models' compute mode scales a fresh copy of the
flipped coefficient vector, so after the call the caller's time-axis buffer
and parameter buffer hold exactly their original values, and the returned
curve is the polynomial of the scaled copy evaluated at `abs` of the
original time axis. -/
theorem bg_polyTrace_frame :
    ∀ (s : Store) (tRef paramRef : ArrRef) (lam : ℝ) (fresh : ℕ),
      fresh ≠ tRef.id → fresh ≠ paramRef.id →
      readArr (bg_polyTrace s tRef paramRef lam fresh).1 tRef = readArr s tRef ∧
      readArr (bg_polyTrace s tRef paramRef lam fresh).1 paramRef =
        readArr s paramRef ∧
      (bg_polyTrace s tRef paramRef lam fresh).2 =
        (readArr s tRef).map fun ti =>
          polyval (scaleAllButLast lam (readArr s paramRef).reverse) |ti| := by
  intro s tRef paramRef lam fresh ht hp
  have hst : (bg_polyTrace s tRef paramRef lam fresh).1 =
      Function.update s fresh
        (scaleAllButLast lam (readArr s paramRef).reverse) := by
    simp [bg_polyTrace, copyArr, writeArr, readArr_plain, readArr_flipView,
      Function.update_idem, Function.update_same]
  have hread : ∀ b : ArrRef, b.id ≠ fresh →
      readArr (Function.update s fresh
        (scaleAllButLast lam (readArr s paramRef).reverse)) b = readArr s b := by
    intro b hb
    simp [readArr, Function.update_noteq hb]
  refine ⟨?_, ?_, ?_⟩
  · rw [hst]
    exact hread tRef (Ne.symm ht)
  · rw [hst]
    exact hread paramRef (Ne.symm hp)
  · have h2 : (bg_polyTrace s tRef paramRef lam fresh).2 =
        (readArr (bg_polyTrace s tRef paramRef lam fresh).1 tRef).map fun ti =>
          polyval (readArr (bg_polyTrace s tRef paramRef lam fresh).1
            ⟨fresh, false⟩) |ti| := by
      simp [bg_polyTrace, copyArr]
    rw [h2, hst]
    have hcoef : readArr (Function.update s fresh
        (scaleAllButLast lam (readArr s paramRef).reverse)) ⟨fresh, false⟩ =
        scaleAllButLast lam (readArr s paramRef).reverse := by
      simp [readArr_plain, Function.update_same]
    rw [hcoef, hread tRef (Ne.symm ht)]

/-- Witness for C9: the trace on a concrete two-buffer store, with the copy
placed in buffer 2, preserves both input buffers and computes the affine
curve of the original coefficients. -/
theorem bg_polyTrace_frame_witness :
    readArr (bg_polyTrace wStore ⟨0, false⟩ ⟨1, false⟩ 1 2).1 ⟨0, false⟩ =
      readArr wStore ⟨0, false⟩ ∧
    readArr (bg_polyTrace wStore ⟨0, false⟩ ⟨1, false⟩ 1 2).1 ⟨1, false⟩ =
      readArr wStore ⟨1, false⟩ ∧
    (bg_polyTrace wStore ⟨0, false⟩ ⟨1, false⟩ 1 2).2 =
      (readArr wStore ⟨0, false⟩).map fun ti =>
        polyval (scaleAllButLast 1 (readArr wStore ⟨1, false⟩).reverse) |ti| :=
  bg_polyTrace_frame wStore ⟨0, false⟩ ⟨1, false⟩ 1 2 (by decide) (by decide)

/-- C1 (code defect): in the general branch (`d ≠ 3`) the source binds `Lam`
to the PAIR returned by `scp.integrate.quad` instead of its first component,
so the scalar prefactor is multiplied into a 2-element array; on the
three-point time axis `[0, 1, 2]` with `d = 2` the final elementwise product
cannot broadcast and the call raises, instead of returning the claimed
decay curve — whatever value the quadrature returns. -/
theorem bg_homfractal_quad_pair_bug :
    ∀ quad : (ℝ → ℝ) → ℝ → ℝ → ℕ → ℝ × ℝ,
      bg_homfractal quad [.array [0, 1, 2], .array [50, 2], .scalar 1] =
        .error .broadcastError := by
  intro quad
  have hd : ¬((2 : ℝ) = 3) := by norm_num
  simp [bg_homfractal, bg_homfractal_npar, _parsargs, atleast_1d, asFloat, hd,
    broadcast2]

end DeerLab
